import Mathlib

/-!
Shallow embedding of `src/powerpoint_extractor.py` (class `PowerPointExtractor`).

The document object graph exposed by the external library (python-pptx) is
modelled as immutable Lean structures: a `Shape` carries an optional text
(`Option String`, `none` meaning the shape lacks a `text` attribute, so that
the `hasattr(shape, "text")` guard becomes a match on the option), a
placeholder flag together with the placeholder-type code, a shape-type code
(13 is the picture type) and geometry fields.  Each `extract_*` method of the
Python class is translated into a Lean function over this model, keeping the
loop-and-accumulator structure of the source (Python `list.append` /
string `+=` become folds that append on the right).
-/

namespace PPTX

/-- A shape on a slide.  `text = none` models a shape object without a
`text` attribute; `placeholder_type` is the `placeholder_format.type` code,
only meaningful when `is_placeholder` is `true` (type code 1 is the title
placeholder).  `shape_type` is the numeric shape-type code (13 = picture). -/
structure Shape where
  name : String
  shape_type : Nat
  width : Int
  height : Int
  left : Int
  top : Int
  text : Option String
  is_placeholder : Bool
  placeholder_type : Nat
deriving DecidableEq

/-- The speaker-notes slide attached to a slide: its own list of shapes. -/
structure NotesSlide where
  shapes : List Shape
deriving DecidableEq

/-- A slide layout: only its name is read by the program. -/
structure Layout where
  name : String
deriving DecidableEq

/-- A slide: ordered shapes, its layout, and an optional notes slide
(`none` models a falsy `slide.notes_slide`). -/
structure Slide where
  shapes : List Shape
  slide_layout : Layout
  notes_slide : Option NotesSlide
deriving DecidableEq

/-- A presentation: ordered slides plus the document pixel dimensions. -/
structure Presentation where
  slides : List Slide
  slide_width : Int
  slide_height : Int
deriving DecidableEq

/-- The extractor object: the input file path and the loaded document. -/
structure Extractor where
  file_path : String
  presentation : Presentation
deriving DecidableEq

/-- Python `enumerate(xs, n)`: pair each element with its index counting
from `n`. -/
def enumFromN : Nat → List α → List (Nat × α)
  | _, [] => []
  | n, x :: xs => (n, x) :: enumFromN (n + 1) xs

/-- Python `str.strip()`: drop whitespace from both ends.  Implemented by
structural recursion over the character list so that concrete instances
reduce inside the kernel. -/
def pyStrip (s : String) : String :=
  String.mk (((s.data.dropWhile Char.isWhitespace).reverse.dropWhile
    Char.isWhitespace).reverse)

/-- Python `" ".join(xs)` generalised to an arbitrary separator. -/
def joinWith (sep : String) : List String → String
  | [] => ""
  | [x] => x
  | x :: xs => x ++ sep ++ joinWith sep xs

/-- Characters of a string up to (excluding) the first newline. -/
def firstLineChars : List Char → List Char
  | [] => []
  | c :: cs => if c = '\n' then [] else c :: firstLineChars cs

/-- The truthiness test `hasattr(shape, "text") and shape.text.strip()`:
the shape has a text attribute and its trimmed text is non-empty. -/
def Shape.hasText (sh : Shape) : Bool :=
  match sh.text with
  | some t => if pyStrip t = "" then false else true
  | none => false

/-- The trimmed text of a shape, empty when the text attribute is absent. -/
def Shape.trimText (sh : Shape) : String :=
  pyStrip (sh.text.getD "")

/-! ### extract_basic_info -/

structure SlideDimensions where
  width : Int
  height : Int
deriving DecidableEq

structure BasicInfo where
  file_path : String
  total_slides : Nat
  slide_dimensions : SlideDimensions
deriving DecidableEq

/-- `extract_basic_info`: file path, slide count and slide dimensions. -/
def extract_basic_info (e : Extractor) : BasicInfo :=
  { file_path := e.file_path
    total_slides := e.presentation.slides.length
    slide_dimensions :=
      { width := e.presentation.slide_width
        height := e.presentation.slide_height } }

/-! ### extract_all_text -/

structure SlideTextEntry where
  slide_number : Nat
  text_elements : List String
  combined_text : String
deriving DecidableEq

structure AllTextResult where
  slides : List SlideTextEntry
  all_text_combined : List String
deriving DecidableEq

/-- One step of the shape loop of `extract_all_text`: append the trimmed
text of a shape passing the `hasattr(shape, "text") and shape.text.strip()`
guard. -/
def textStep (acc : List String) (sh : Shape) : List String :=
  match sh.text with
  | some t => if pyStrip t = "" then acc else acc ++ [pyStrip t]
  | none => acc

/-- The inner loop of `extract_all_text`: walk the shapes of one slide,
collecting the trimmed texts. -/
def textListOf (shapes : List Shape) : List String :=
  shapes.foldl textStep []

/-- One step of the slide loop of `extract_all_text`: append the entry of
one slide and extend the flat fragment list. -/
def allTextStep (acc : AllTextResult) (it : Nat × Slide) : AllTextResult :=
  let slide_text := textListOf it.2.shapes
  { slides := acc.slides ++
      [{ slide_number := it.1
         text_elements := slide_text
         combined_text := joinWith " " slide_text }]
    all_text_combined := acc.all_text_combined ++ slide_text }

/-- `extract_all_text`: per slide the ordinal, the list of non-empty trimmed
text fragments and their space-join; plus the flat list of all fragments. -/
def extract_all_text (e : Extractor) : AllTextResult :=
  (enumFromN 1 e.presentation.slides).foldl allTextStep
    { slides := [], all_text_combined := [] }

/-! ### extract_slide_titles -/

/-- `shape.text.strip().split('\n')[0]`: the first line of a string. -/
def firstLineOf (s : String) : String :=
  String.mk (firstLineChars s.data)

/-- The first loop of `extract_slide_titles`: `title` starts as
`"No Title"`; the loop walks the shapes, skipping non-placeholders and
placeholders whose type code is not 1 (the `break` in the source sits
inside the `if placeholder.type == 1:` branch).  At the first type-1
placeholder the title becomes its trimmed text when that is non-empty, and
the loop breaks there in either case, so later type-1 placeholders are
never reached. -/
def titleScan : List Shape → String
  | [] => "No Title"
  | sh :: rest =>
    if sh.is_placeholder then
      if sh.placeholder_type = 1 then
        match sh.text with
        | some t => if pyStrip t = "" then "No Title" else pyStrip t
        | none => "No Title"
      else titleScan rest
    else titleScan rest

/-- The second loop of `extract_slide_titles`: the first line of the trimmed
text of the first shape with non-empty trimmed text. -/
def titleFallback : List Shape → String
  | [] => "No Title"
  | sh :: rest =>
    match sh.text with
    | some t =>
      if pyStrip t = "" then titleFallback rest else firstLineOf (pyStrip t)
    | none => titleFallback rest

/-- Title of one slide: the placeholder scan, then, when the scan left the
sentinel `"No Title"`, the fallback scan over all shapes. -/
def slideTitle (sl : Slide) : String :=
  let title := titleScan sl.shapes
  if title = "No Title" then titleFallback sl.shapes else title

structure TitleEntry where
  slide_number : Nat
  title : String
deriving DecidableEq

/-- `extract_slide_titles`: one `{slide_number, title}` record per slide. -/
def extract_slide_titles (e : Extractor) : List TitleEntry :=
  (enumFromN 1 e.presentation.slides).map
    (fun it => { slide_number := it.1, title := slideTitle it.2 })

/-! ### extract_images_info -/

structure ImageEntry where
  shape_name : String
  width : Int
  height : Int
  left : Int
  top : Int
deriving DecidableEq

structure SlideImagesEntry where
  slide_number : Nat
  images : List ImageEntry
  image_count : Nat
deriving DecidableEq

/-- The image record built from a picture shape. -/
def imageEntryOf (sh : Shape) : ImageEntry :=
  { shape_name := sh.name, width := sh.width,
    height := sh.height, left := sh.left, top := sh.top }

/-- One step of the shape loop of `extract_images_info`: keep shapes whose
shape-type code is 13 (picture). -/
def imageStep (acc : List ImageEntry) (sh : Shape) : List ImageEntry :=
  if sh.shape_type = 13 then acc ++ [imageEntryOf sh] else acc

/-- The inner loop of `extract_images_info`. -/
def imageListOf (shapes : List Shape) : List ImageEntry :=
  shapes.foldl imageStep []

/-- One step of the slide loop of `extract_images_info`: the
`if slide_images:` truthiness guard keeps only slides with a picture. -/
def imagesInfoStep (acc : List SlideImagesEntry) (it : Nat × Slide) :
    List SlideImagesEntry :=
  let slide_images := imageListOf it.2.shapes
  if slide_images.isEmpty then acc
  else acc ++
    [{ slide_number := it.1
       images := slide_images
       image_count := slide_images.length }]

/-- `extract_images_info`: only slides with at least one picture contribute
an entry, carrying the picture list and its length. -/
def extract_images_info (e : Extractor) : List SlideImagesEntry :=
  (enumFromN 1 e.presentation.slides).foldl imagesInfoStep []

/-! ### extract_notes -/

structure NotesEntry where
  slide_number : Nat
  notes : String
deriving DecidableEq

/-- One step of the shape loop of `extract_notes`: a notes shape with
non-empty trimmed text appends that text plus one space. -/
def notesStep (acc : String) (sh : Shape) : String :=
  match sh.text with
  | some t => if pyStrip t = "" then acc else acc ++ pyStrip t ++ " "
  | none => acc

/-- The inner loop of `extract_notes`: `notes_text` starts empty and grows
by one trimmed fragment plus a space per contributing shape. -/
def notesConcat (shapes : List Shape) : String :=
  shapes.foldl notesStep ""

/-- The notes text accumulated for one slide: empty when the slide has no
notes slide (the `if notes_slide:` truthiness guard). -/
def slideNotesText (sl : Slide) : String :=
  match sl.notes_slide with
  | some ns => notesConcat ns.shapes
  | none => ""

/-- One step of the slide loop of `extract_notes`: keep the slide only when
its accumulated notes text is non-empty after trimming. -/
def notesInfoStep (acc : List NotesEntry) (it : Nat × Slide) : List NotesEntry :=
  let notes_text := slideNotesText it.2
  if pyStrip notes_text = "" then acc
  else acc ++ [{ slide_number := it.1, notes := pyStrip notes_text }]

/-- `extract_notes`: only slides whose accumulated notes text is non-empty
after trimming contribute an entry, holding the trimmed text. -/
def extract_notes (e : Extractor) : List NotesEntry :=
  (enumFromN 1 e.presentation.slides).foldl notesInfoStep []

/-! ### extract_slide_layout_info -/

structure ShapeInfo where
  name : String
  type : String
  has_text : Bool
  is_placeholder : Bool
deriving DecidableEq

structure LayoutEntry where
  slide_number : Nat
  layout_name : String
  shape_count : Nat
  shapes : List ShapeInfo
deriving DecidableEq

/-- Per-shape descriptor of `extract_slide_layout_info`; `str(shape_type)`
is rendered as the decimal string of the type code. -/
def shapeInfoOf (sh : Shape) : ShapeInfo :=
  { name := sh.name
    type := toString sh.shape_type
    has_text := sh.hasText
    is_placeholder := sh.is_placeholder }

/-- `extract_slide_layout_info`: ordinal, layout name, shape count and the
per-shape descriptor list for every slide. -/
def extract_slide_layout_info (e : Extractor) : List LayoutEntry :=
  (enumFromN 1 e.presentation.slides).map
    (fun it =>
      { slide_number := it.1
        layout_name := it.2.slide_layout.name
        shape_count := it.2.shapes.length
        shapes := it.2.shapes.map shapeInfoOf })

/-! ### extract_all_information and save_to_json -/

structure Report where
  basic_info : BasicInfo
  titles : List TitleEntry
  text_content : AllTextResult
  images_info : List SlideImagesEntry
  notes : List NotesEntry
  layout_info : List LayoutEntry
deriving DecidableEq

/-- `extract_all_information`: the six sections under their fixed keys. -/
def extract_all_information (e : Extractor) : Report :=
  { basic_info := extract_basic_info e
    titles := extract_slide_titles e
    text_content := extract_all_text e
    images_info := extract_images_info e
    notes := extract_notes e
    layout_info := extract_slide_layout_info e }

/-- Index of the last occurrence of a character in a list (helper for the
`rfind` calls inside `os.path.splitext`). -/
def lastIndexOfAux (c : Char) : List Char → Nat → Option Nat → Option Nat
  | [], _, best => best
  | x :: xs, i, best =>
    lastIndexOfAux c xs (i + 1) (if x = c then some i else best)

def lastIndexOf (c : Char) (l : List Char) : Option Nat :=
  lastIndexOfAux c l 0 none

/-- Characters after the last occurrence of a separator character. -/
def afterLastSep (sep : Char) : List Char → List Char
  | [] => []
  | c :: cs =>
    if cs.contains sep then afterLastSep sep cs
    else if c = sep then cs
    else c :: cs

/-- `os.path.basename` on POSIX: the part after the last slash. -/
def basename (p : String) : String :=
  String.mk (afterLastSep '/' p.data)

/-- The root part of `os.path.splitext`: drop the extension starting at the
last dot, unless every character between the last slash and that dot is a
dot (so hidden files like `.bashrc` keep their name). -/
def splitextRoot (p : String) : String :=
  let cs := p.toList
  match lastIndexOf '.' cs with
  | none => p
  | some d =>
    let start := match lastIndexOf '/' cs with
      | none => 0
      | some s => s + 1
    if start ≤ d ∧ ((cs.drop start).take (d - start)).any (fun ch => ch ≠ '.')
    then String.mk (cs.take d)
    else p

/-- `os.path.join` on POSIX for two components: an absolute second part
wins; otherwise insert a slash unless one is already there. -/
def posixJoin (a b : String) : String :=
  if b.data.head? = some '/' then b
  else if a = "" ∨ a.data.getLast? = some '/' then a ++ b
  else a ++ "/" ++ b

/-- The default output path of `save_to_json`:
`os.path.join('slides', base_name + "_extracted_info.json")` where
`base_name` is the stem of the input file name. -/
def defaultOutputPath (file_path : String) : String :=
  posixJoin "slides" (splitextRoot (basename file_path) ++ "_extracted_info.json")

/-- `save_to_json`: the Python guard is `if not output_file:`, so both
`None` and the empty string select the derived default path.  The model
returns the path written together with the serialized report. -/
def save_to_json (e : Extractor) (output_file : Option String) : String × Report :=
  let out := match output_file with
    | some o => if o = "" then defaultOutputPath e.file_path else o
    | none => defaultOutputPath e.file_path
  (out, extract_all_information e)

/-!
### Specification-side definitions

These restate, in the words of the specification, what the loops above are
claimed to compute; the theorems below compare them with the translated
code.
-/

/-- The first title placeholder (placeholder with type code 1) of a slide,
in shape order; placeholders of other types are skipped, as the scan of the
code does. -/
def firstTitlePlaceholder (shapes : List Shape) : Option Shape :=
  shapes.find? (fun sh => sh.is_placeholder && sh.placeholder_type == 1)

/-- The first shape with non-empty trimmed text, in shape order. -/
def firstTextShape (shapes : List Shape) : Option Shape :=
  shapes.find? (fun sh => sh.hasText)

/-- Spec wording of the title fallback: the first line of the trimmed text
of the first shape with non-empty trimmed text, else the sentinel. -/
def specFallback (shapes : List Shape) : String :=
  match firstTextShape shapes with
  | some sh => firstLineOf sh.trimText
  | none => "No Title"

/-- Amended spec wording of title resolution: when the first title
placeholder (type code 1) of the slide has non-empty trimmed text different
from the sentinel `"No Title"`, that text is the title; in every other case
(no type-1 placeholder, no usable text on the first one, or its text equal
to the sentinel) the fallback scan decides. -/
def specTitle (shapes : List Shape) : String :=
  match firstTitlePlaceholder shapes with
  | some ph =>
    if ph.trimText ≠ "" ∧ ph.trimText ≠ "No Title"
    then ph.trimText
    else specFallback shapes
  | none => specFallback shapes

/-- Plain concatenation of a list of strings. -/
def concatAll : List String → String
  | [] => ""
  | x :: xs => x ++ concatAll xs

/-- Spec wording of one slide entry of `extract_all_text`. -/
def slideEntryOf (it : Nat × Slide) : SlideTextEntry :=
  { slide_number := it.1
    text_elements := textListOf it.2.shapes
    combined_text := joinWith " " (textListOf it.2.shapes) }

/-- Spec wording of the per-slide decision of `extract_images_info`: an
entry exactly when the slide has at least one picture. -/
def imagesEntryOf (it : Nat × Slide) : Option SlideImagesEntry :=
  let imgs := imageListOf it.2.shapes
  if imgs.isEmpty then none
  else some { slide_number := it.1, images := imgs, image_count := imgs.length }

/-- Spec wording of the per-slide decision of `extract_notes`: an entry
exactly when the accumulated notes text is non-empty after trimming. -/
def notesEntryOf (it : Nat × Slide) : Option NotesEntry :=
  if pyStrip (slideNotesText it.2) = "" then none
  else some { slide_number := it.1, notes := pyStrip (slideNotesText it.2) }

/-!
### Concrete documents used as test inputs

Small hand-built documents exercising the edge cases named by the
specification.
-/

def sampleLayout : Layout := { name := "Title and Content" }

/-- A plain text box (not a placeholder) with the given text. -/
def plainTextShape (nm s : String) : Shape :=
  { name := nm, shape_type := 17, width := 100, height := 50, left := 0,
    top := 0, text := some s, is_placeholder := false, placeholder_type := 0 }

/-- A placeholder shape with the given placeholder-type code and text. -/
def placeholderShape (ty : Nat) (txt : Option String) : Shape :=
  { name := "Placeholder", shape_type := 14, width := 200, height := 80,
    left := 10, top := 10, text := txt, is_placeholder := true,
    placeholder_type := ty }

/-- A picture shape with the given geometry (shape-type code 13). -/
def pictureShape (nm : String) (w h l t : Int) : Shape :=
  { name := nm, shape_type := 13, width := w, height := h, left := l,
    top := t, text := none, is_placeholder := false, placeholder_type := 0 }

/-- A slide whose first shape is a non-title placeholder with only
whitespace text, followed by a text box with visible text. -/
def c1Slide : Slide :=
  { shapes := [placeholderShape 2 (some "  "), plainTextShape "Body" "Hello there"]
    slide_layout := sampleLayout
    notes_slide := none }

def c1Doc : Extractor :=
  { file_path := "/tmp/c1.pptx"
    presentation := { slides := [c1Slide], slide_width := 9144000, slide_height := 6858000 } }

/-- A slide whose title placeholder text is the literal sentinel, preceded
by a text box. -/
def c2Slide : Slide :=
  { shapes := [plainTextShape "Body" "Foo\nBar", placeholderShape 1 (some "No Title")]
    slide_layout := sampleLayout
    notes_slide := none }

def c2Doc : Extractor :=
  { file_path := "/tmp/c2.pptx"
    presentation := { slides := [c2Slide], slide_width := 9144000, slide_height := 6858000 } }

/-- A slide with no placeholders whose first text shape has two lines. -/
def quarterlySlide : Slide :=
  { shapes := [plainTextShape "Box" "Quarterly Report\nSubtitle"]
    slide_layout := sampleLayout
    notes_slide := none }

def quarterlyDoc : Extractor :=
  { file_path := "/tmp/q.pptx"
    presentation := { slides := [quarterlySlide], slide_width := 9144000, slide_height := 6858000 } }

/-- Two slides: the first holds one picture plus a text box, the second has
no picture at all. -/
def c5Doc : Extractor :=
  { file_path := "/tmp/c5.pptx"
    presentation :=
      { slides :=
          [ { shapes := [pictureShape "Image 1" 10 20 30 40, plainTextShape "T" "x"]
              slide_layout := sampleLayout
              notes_slide := none }
          , { shapes := [plainTextShape "T2" "y"]
              slide_layout := sampleLayout
              notes_slide := none } ]
        slide_width := 9144000
        slide_height := 6858000 } }

/-- Three slides: real notes, whitespace-only notes, and no notes slide. -/
def c6Doc : Extractor :=
  { file_path := "/tmp/c6.pptx"
    presentation :=
      { slides :=
          [ { shapes := []
              slide_layout := sampleLayout
              notes_slide := some { shapes := [plainTextShape "N1" " hello ", plainTextShape "N2" "world"] } }
          , { shapes := []
              slide_layout := sampleLayout
              notes_slide := some { shapes := [plainTextShape "N3" "   "] } }
          , { shapes := []
              slide_layout := sampleLayout
              notes_slide := none } ]
        slide_width := 9144000
        slide_height := 6858000 } }

/-- A shape without a text attribute (and a title placeholder at that). -/
def c8NoTextShape : Shape :=
  { name := "Frame", shape_type := 19, width := 5, height := 5, left := 0,
    top := 0, text := none, is_placeholder := true, placeholder_type := 1 }

/-- A non-placeholder shape without a text attribute. -/
def c8PlainNoText : Shape :=
  { name := "Connector", shape_type := 20, width := 3, height := 3, left := 1,
    top := 1, text := none, is_placeholder := false, placeholder_type := 0 }

def c8OtherShape : Shape := plainTextShape "Other" "content"

/-- An extractor opened on `/tmp/deck.pptx` (empty document body). -/
def c9Doc : Extractor :=
  { file_path := "/tmp/deck.pptx"
    presentation := { slides := [], slide_width := 9144000, slide_height := 6858000 } }

/-- A slide whose title placeholder holds exactly the sentinel text; a
non-title placeholder with only whitespace text precedes it, together with
a text box holding different text. -/
def c10Slide : Slide :=
  { shapes :=
      [ placeholderShape 2 (some " ")
      , plainTextShape "Body" "Agenda items\nDetails"
      , placeholderShape 1 (some "No Title") ]
    slide_layout := sampleLayout
    notes_slide := none }

/-- Shapes for the whitespace-only and multi-line text fragments test. -/
def c4WsShape : Shape := plainTextShape "Ws" "  "

def c4HiShape : Shape := plainTextShape "Hi" "Hi\nThere"

/-! ### Helper lemmas about the enumeration and the accumulator loops -/

theorem enumFromN_map_fst (n : Nat) (l : List α) :
    (enumFromN n l).map Prod.fst = List.range' n l.length := by
  induction l generalizing n with
  | nil => rfl
  | cons x xs ih => simp [enumFromN, List.range'_succ, ih]

theorem enumFromN_length (n : Nat) (l : List α) :
    (enumFromN n l).length = l.length := by
  induction l generalizing n with
  | nil => rfl
  | cons x xs ih => simp [enumFromN, ih]

theorem foldl_textStep_eq (l : List Shape) (acc : List String) :
    l.foldl textStep acc =
      acc ++ (l.filter (fun sh => sh.hasText)).map Shape.trimText := by
  induction l generalizing acc with
  | nil => simp
  | cons sh l ih =>
    rw [List.foldl_cons, ih]
    cases h : sh.text with
    | none => simp [textStep, Shape.hasText, h]
    | some t =>
      by_cases hs : pyStrip t = "" <;>
        simp [textStep, Shape.hasText, Shape.trimText, h, hs]

theorem textListOf_eq (shapes : List Shape) :
    textListOf shapes =
      (shapes.filter (fun sh => sh.hasText)).map Shape.trimText := by
  simpa [textListOf] using foldl_textStep_eq shapes []

theorem foldl_imageStep_eq (l : List Shape) (acc : List ImageEntry) :
    l.foldl imageStep acc =
      acc ++ (l.filter (fun sh => sh.shape_type == 13)).map imageEntryOf := by
  induction l generalizing acc with
  | nil => simp
  | cons sh l ih =>
    rw [List.foldl_cons, ih]
    by_cases h : sh.shape_type = 13 <;> simp [imageStep, h]

theorem imageListOf_eq (shapes : List Shape) :
    imageListOf shapes =
      (shapes.filter (fun sh => sh.shape_type == 13)).map imageEntryOf := by
  simpa [imageListOf] using foldl_imageStep_eq shapes []

theorem foldl_notesStep_eq (l : List Shape) (acc : String) :
    l.foldl notesStep acc =
      acc ++ concatAll
        ((l.filter (fun sh => sh.hasText)).map (fun sh => sh.trimText ++ " ")) := by
  induction l generalizing acc with
  | nil => simp [concatAll]
  | cons sh l ih =>
    rw [List.foldl_cons, ih]
    cases h : sh.text with
    | none => simp [notesStep, Shape.hasText, h]
    | some t =>
      by_cases hs : pyStrip t = "" <;>
        simp [notesStep, Shape.hasText, Shape.trimText, h, hs, concatAll,
          String.append_assoc]

theorem notesConcat_eq (shapes : List Shape) :
    notesConcat shapes =
      concatAll
        ((shapes.filter (fun sh => sh.hasText)).map (fun sh => sh.trimText ++ " ")) := by
  have h := foldl_notesStep_eq shapes ""
  simpa [notesConcat] using h

theorem foldl_allTextStep_eq (l : List (Nat × Slide)) (acc : AllTextResult) :
    l.foldl allTextStep acc =
      { slides := acc.slides ++ l.map slideEntryOf
        all_text_combined :=
          acc.all_text_combined ++
            (l.map (fun it => textListOf it.2.shapes)).flatten } := by
  induction l generalizing acc with
  | nil => simp
  | cons it l ih => simp [allTextStep, ih, slideEntryOf]

theorem extract_all_text_eq (e : Extractor) :
    extract_all_text e =
      { slides := (enumFromN 1 e.presentation.slides).map slideEntryOf
        all_text_combined :=
          ((enumFromN 1 e.presentation.slides).map
            (fun it => textListOf it.2.shapes)).flatten } := by
  simpa [extract_all_text] using
    foldl_allTextStep_eq (enumFromN 1 e.presentation.slides)
      { slides := [], all_text_combined := [] }

theorem foldl_imagesInfoStep_eq (l : List (Nat × Slide))
    (acc : List SlideImagesEntry) :
    l.foldl imagesInfoStep acc = acc ++ l.filterMap imagesEntryOf := by
  induction l generalizing acc with
  | nil => simp
  | cons it l ih =>
    rw [List.foldl_cons, ih]
    by_cases h : (imageListOf it.2.shapes).isEmpty <;>
      simp [imagesInfoStep, imagesEntryOf, h, List.filterMap_cons]

theorem extract_images_info_eq (e : Extractor) :
    extract_images_info e =
      (enumFromN 1 e.presentation.slides).filterMap imagesEntryOf := by
  simpa [extract_images_info] using
    foldl_imagesInfoStep_eq (enumFromN 1 e.presentation.slides) []

theorem foldl_notesInfoStep_eq (l : List (Nat × Slide)) (acc : List NotesEntry) :
    l.foldl notesInfoStep acc = acc ++ l.filterMap notesEntryOf := by
  induction l generalizing acc with
  | nil => simp
  | cons it l ih =>
    rw [List.foldl_cons, ih]
    by_cases h : pyStrip (slideNotesText it.2) = "" <;>
      simp [notesInfoStep, notesEntryOf, h, List.filterMap_cons]

theorem extract_notes_eq (e : Extractor) :
    extract_notes e =
      (enumFromN 1 e.presentation.slides).filterMap notesEntryOf := by
  simpa [extract_notes] using
    foldl_notesInfoStep_eq (enumFromN 1 e.presentation.slides) []

/-! ### Helper lemmas about title resolution -/

theorem titleScan_eq (shapes : List Shape) :
    titleScan shapes =
      (match firstTitlePlaceholder shapes with
       | some ph => if ph.trimText ≠ "" then ph.trimText else "No Title"
       | none => "No Title") := by
  induction shapes with
  | nil => rfl
  | cons sh rest ih =>
    by_cases hp : sh.is_placeholder
    · by_cases ht : sh.placeholder_type = 1
      · rw [firstTitlePlaceholder, List.find?_cons_of_pos _ (by simp [hp, ht])]
        cases h : sh.text with
        | none => simp [titleScan, hp, ht, Shape.trimText, h, pyStrip]
        | some t =>
          by_cases hs : pyStrip t = "" <;>
            simp [titleScan, hp, ht, Shape.trimText, h, hs]
      · rw [firstTitlePlaceholder, List.find?_cons_of_neg _ (by simp [hp, ht])]
        simpa [titleScan, hp, ht, firstTitlePlaceholder] using ih
    · rw [firstTitlePlaceholder, List.find?_cons_of_neg _ (by simp [hp])]
      simpa [titleScan, hp, firstTitlePlaceholder] using ih

theorem titleScan_of_no_placeholder (l : List Shape)
    (h : l.filter (fun s => s.is_placeholder) = []) :
    titleScan l = "No Title" := by
  rw [titleScan_eq]
  have hnone : firstTitlePlaceholder l = none := by
    rw [firstTitlePlaceholder, List.find?_eq_none]
    intro x hx
    have hx2 := List.filter_eq_nil_iff.mp h x hx
    simp only [Bool.not_eq_true] at hx2
    simp [hx2]
  rw [hnone]

theorem titleFallback_eq (shapes : List Shape) :
    titleFallback shapes = specFallback shapes := by
  induction shapes with
  | nil => rfl
  | cons sh rest ih =>
    cases h : sh.text with
    | none =>
      rw [specFallback, firstTextShape,
        List.find?_cons_of_neg _ (by simp [Shape.hasText, h])]
      simpa [titleFallback, h, specFallback, firstTextShape] using ih
    | some t =>
      by_cases hs : pyStrip t = ""
      · rw [specFallback, firstTextShape,
          List.find?_cons_of_neg _ (by simp [Shape.hasText, h, hs])]
        simpa [titleFallback, h, hs, specFallback, firstTextShape] using ih
      · rw [specFallback, firstTextShape,
          List.find?_cons_of_pos _ (by simp [Shape.hasText, h, hs])]
        simp [titleFallback, h, hs, Shape.trimText]

theorem slideTitle_eq_specTitle (sl : Slide) :
    slideTitle sl = specTitle sl.shapes := by
  rw [slideTitle, titleScan_eq, specTitle]
  cases h : firstTitlePlaceholder sl.shapes with
  | none => simp [titleFallback_eq]
  | some ph =>
    by_cases hc : ph.trimText = ""
    · simp [hc, titleFallback_eq]
    · by_cases hnt : ph.trimText = "No Title"
      · simp [hc, hnt, titleFallback_eq]
      · simp [hc, hnt, titleFallback_eq]

/-! ### Claim theorems -/

/-- Claim C1, counterexample: on a slide whose first shape is a non-title
placeholder with only whitespace text and whose later text box reads
"Hello there", the extracted title is "Hello there", not the "No Title"
the claim predicts (the fallback scan does reach later shapes). -/
theorem claim1_counterexample :
    c1Slide.shapes.head? = some (placeholderShape 2 (some "  ")) ∧
    (placeholderShape 2 (some "  ")).is_placeholder = true ∧
    (placeholderShape 2 (some "  ")).placeholder_type ≠ 1 ∧
    (placeholderShape 2 (some "  ")).hasText = false ∧
    c1Slide.shapes.filter (fun sh => sh.is_placeholder) =
      [placeholderShape 2 (some "  ")] ∧
    (plainTextShape "Body" "Hello there").hasText = true ∧
    extract_slide_titles c1Doc = [{ slide_number := 1, title := "Hello there" }] ∧
    "Hello there" ≠ "No Title" := by
  decide

/-- Claim C1, amended: the placeholder scan does not stop at a non-title
placeholder — it skips it (the break of the source sits inside the type-1
branch) — so on a slide whose first shape is a textless non-title
placeholder with no other placeholders the scan finds no type-1 placeholder
and leaves the sentinel, and the slide then takes its title from the
fallback scan over the remaining shapes rather than the literal
"No Title". -/
theorem claim1_scan_skips_then_fallback (sh : Shape) (rest : List Shape)
    (lay : Layout) (ns : Option NotesSlide)
    (h1 : sh.is_placeholder = true) (h2 : sh.placeholder_type ≠ 1)
    (h3 : sh.hasText = false)
    (h4 : rest.filter (fun s => s.is_placeholder) = []) :
    titleScan (sh :: rest) = titleScan rest ∧
    titleScan (sh :: rest) = "No Title" ∧
    slideTitle { shapes := sh :: rest, slide_layout := lay, notes_slide := ns } =
      titleFallback rest := by
  have hcont : titleScan (sh :: rest) = titleScan rest := by
    simp [titleScan, h1, h2]
  have hscan : titleScan (sh :: rest) = "No Title" := by
    rw [hcont]
    exact titleScan_of_no_placeholder rest h4
  refine ⟨hcont, hscan, ?_⟩
  have hfb : titleFallback (sh :: rest) = titleFallback rest := by
    cases h : sh.text with
    | none => simp [titleFallback, h]
    | some t =>
      have hs : pyStrip t = "" := by
        by_contra hne
        simp [Shape.hasText, h, hne] at h3
      simp [titleFallback, h, hs]
  simp [slideTitle, hscan, hfb]

/-- Claim C1, witness: the amended theorem applied to the concrete slide of
the counterexample. -/
theorem claim1_witness :
    (placeholderShape 2 (some "  ")).is_placeholder = true ∧
    (placeholderShape 2 (some "  ")).placeholder_type ≠ 1 ∧
    (placeholderShape 2 (some "  ")).hasText = false ∧
    [plainTextShape "Body" "Hello there"].filter (fun s => s.is_placeholder) = [] ∧
    (titleScan c1Slide.shapes = titleScan [plainTextShape "Body" "Hello there"] ∧
      titleScan c1Slide.shapes = "No Title" ∧
      slideTitle c1Slide = titleFallback [plainTextShape "Body" "Hello there"]) := by
  refine ⟨by decide, by decide, by decide, by decide, ?_⟩
  exact claim1_scan_skips_then_fallback (placeholderShape 2 (some "  "))
    [plainTextShape "Body" "Hello there"] sampleLayout none
    (by decide) (by decide) (by decide) (by decide)

/-- Claim C2, counterexample: the slide whose single (title) placeholder
carries exactly the text "No Title" gets the title "Foo" from the first
text box, not the placeholder text the claimed precedence predicts. -/
theorem claim2_counterexample :
    firstTitlePlaceholder c2Slide.shapes = some (placeholderShape 1 (some "No Title")) ∧
    (placeholderShape 1 (some "No Title")).placeholder_type = 1 ∧
    (placeholderShape 1 (some "No Title")).trimText = "No Title" ∧
    (placeholderShape 1 (some "No Title")).trimText ≠ "" ∧
    extract_slide_titles c2Doc = [{ slide_number := 1, title := "Foo" }] ∧
    "Foo" ≠ "No Title" := by
  decide

/-- Claim C2, amended: the precedence is keyed on the first placeholder
with type code 1 (the scan skips placeholders of other types) and holds
with one proviso — that placeholder branch wins only when its trimmed text
also differs from the sentinel "No Title"; otherwise the fallback scan
decides.  The no-placeholder example yields "Quarterly Report". -/
theorem claim2_title_precedence :
    (∀ sl : Slide, slideTitle sl = specTitle sl.shapes) ∧
    extract_slide_titles quarterlyDoc =
      [{ slide_number := 1, title := "Quarterly Report" }] := by
  exact ⟨slideTitle_eq_specTitle, by decide⟩

/-- Claim C3: titles, text_content.slides and layout_info all carry one
entry per slide with slide numbers 1..N in order. -/
theorem claim3_ordinals (e : Extractor) :
    (extract_slide_titles e).map TitleEntry.slide_number =
      List.range' 1 e.presentation.slides.length ∧
    (extract_all_text e).slides.map SlideTextEntry.slide_number =
      List.range' 1 e.presentation.slides.length ∧
    (extract_slide_layout_info e).map LayoutEntry.slide_number =
      List.range' 1 e.presentation.slides.length ∧
    (extract_slide_titles e).length = e.presentation.slides.length ∧
    (extract_all_text e).slides.length = e.presentation.slides.length ∧
    (extract_slide_layout_info e).length = e.presentation.slides.length := by
  refine ⟨?_, ?_, ?_, ?_, ?_, ?_⟩
  · rw [extract_slide_titles, List.map_map]
    exact enumFromN_map_fst 1 _
  · rw [extract_all_text_eq]
    dsimp only
    rw [List.map_map]
    exact enumFromN_map_fst 1 _
  · rw [extract_slide_layout_info, List.map_map]
    exact enumFromN_map_fst 1 _
  · rw [extract_slide_titles, List.length_map]
    exact enumFromN_length 1 _
  · rw [extract_all_text_eq]
    dsimp only
    rw [List.length_map]
    exact enumFromN_length 1 _
  · rw [extract_slide_layout_info, List.length_map]
    exact enumFromN_length 1 _

/-- Claim C4: all_text collects, per slide in order, the trimmed text of
exactly the shapes with non-empty trimmed text; combined_text joins the
fragments with single spaces; the flat list is the concatenation of the
per-slide fragment lists; whitespace-only shapes contribute nothing and
multi-line text stays one fragment. -/
theorem claim4_all_text :
    (∀ shapes : List Shape,
      textListOf shapes = (shapes.filter (fun sh => sh.hasText)).map Shape.trimText) ∧
    (∀ e : Extractor, (extract_all_text e).slides =
      (enumFromN 1 e.presentation.slides).map slideEntryOf) ∧
    (∀ e : Extractor, (extract_all_text e).slides.map SlideTextEntry.combined_text =
      (extract_all_text e).slides.map (fun s => joinWith " " s.text_elements)) ∧
    (∀ e : Extractor, (extract_all_text e).all_text_combined =
      ((extract_all_text e).slides.map SlideTextEntry.text_elements).flatten) ∧
    textListOf [c4WsShape, c4HiShape] = ["Hi\nThere"] := by
  refine ⟨textListOf_eq, ?_, ?_, ?_, by decide⟩
  · intro e
    rw [extract_all_text_eq]
  · intro e
    rw [extract_all_text_eq]
    dsimp only
    simp [List.map_map, slideEntryOf]
  · intro e
    rw [extract_all_text_eq]
    dsimp only
    rw [List.map_map]
    rfl

/-- Claim C5: images_info lists one entry per slide with at least one
picture shape (code 13), in shape order with name and geometry, the count
being the list length; picture-free slides are absent, so the length is at
most the slide count. -/
theorem claim5_images_info :
    (∀ shapes : List Shape, imageListOf shapes =
      (shapes.filter (fun sh => sh.shape_type == 13)).map imageEntryOf) ∧
    (∀ e : Extractor, extract_images_info e =
      (enumFromN 1 e.presentation.slides).filterMap imagesEntryOf) ∧
    (∀ e : Extractor, (extract_images_info e).length ≤ e.presentation.slides.length) ∧
    extract_images_info c5Doc =
      [{ slide_number := 1
         images := [{ shape_name := "Image 1", width := 10, height := 20,
                      left := 30, top := 40 }]
         image_count := 1 }] := by
  refine ⟨imageListOf_eq, extract_images_info_eq, ?_, by decide⟩
  intro e
  rw [extract_images_info_eq]
  calc ((enumFromN 1 e.presentation.slides).filterMap imagesEntryOf).length
      ≤ (enumFromN 1 e.presentation.slides).length :=
        List.length_filterMap_le _ _
    _ = e.presentation.slides.length := enumFromN_length 1 _

/-- Claim C6: notes holds an entry exactly for slides whose notes slide
yields a non-empty concatenation of trimmed shape texts (each followed by
one space, the whole trimmed at the end); slides without a notes slide or
with only whitespace notes are absent. -/
theorem claim6_notes :
    (∀ shapes : List Shape, notesConcat shapes =
      concatAll ((shapes.filter (fun sh => sh.hasText)).map
        (fun sh => sh.trimText ++ " "))) ∧
    (∀ e : Extractor, extract_notes e =
      (enumFromN 1 e.presentation.slides).filterMap notesEntryOf) ∧
    extract_notes c6Doc = [{ slide_number := 1, notes := "hello world" }] := by
  exact ⟨notesConcat_eq, extract_notes_eq, by decide⟩

/-- Claim C7: the aggregate report holds exactly the six sections, each
equal to the result of the corresponding single operation. -/
theorem claim7_report_assembly (e : Extractor) :
    (extract_all_information e).basic_info = extract_basic_info e ∧
    (extract_all_information e).titles = extract_slide_titles e ∧
    (extract_all_information e).text_content = extract_all_text e ∧
    (extract_all_information e).images_info = extract_images_info e ∧
    (extract_all_information e).notes = extract_notes e ∧
    (extract_all_information e).layout_info = extract_slide_layout_info e :=
  ⟨rfl, rfl, rfl, rfl, rfl, rfl⟩

/-- Claim C8: a shape without a text attribute contributes no text
fragment, is skipped by both title scans, adds nothing to the notes
string, and is recorded with has_text false; all operations stay total. -/
theorem claim8_missing_text_attribute (sh : Shape) (h : sh.text = none) :
    (∀ rest, textListOf (sh :: rest) = textListOf rest) ∧
    (∀ rest, titleFallback (sh :: rest) = titleFallback rest) ∧
    (∀ rest, sh.is_placeholder = true → sh.placeholder_type = 1 →
      titleScan (sh :: rest) = "No Title") ∧
    (∀ rest, sh.is_placeholder = true → sh.placeholder_type ≠ 1 →
      titleScan (sh :: rest) = titleScan rest) ∧
    (∀ rest, sh.is_placeholder = false → titleScan (sh :: rest) = titleScan rest) ∧
    (∀ rest, notesConcat (sh :: rest) = notesConcat rest) ∧
    (shapeInfoOf sh).has_text = false := by
  refine ⟨?_, ?_, ?_, ?_, ?_, ?_, ?_⟩
  · intro rest
    simp [textListOf, textStep, h]
  · intro rest
    simp [titleFallback, h]
  · intro rest hp ht
    simp [titleScan, hp, ht, h]
  · intro rest hp ht
    simp [titleScan, hp, ht]
  · intro rest hp
    simp [titleScan, hp]
  · intro rest
    simp [notesConcat, notesStep, h]
  · simp [shapeInfoOf, Shape.hasText, h]

/-- Claim C8, witness: the theorem applied to two concrete shapes without a
text attribute — a title placeholder (the scan halts there with no title)
and a plain connector (the scan passes over it) — next to an ordinary text
shape. -/
theorem claim8_witness :
    c8NoTextShape.text = none ∧
    textListOf [c8NoTextShape, c8OtherShape] = textListOf [c8OtherShape] ∧
    titleFallback [c8NoTextShape, c8OtherShape] = titleFallback [c8OtherShape] ∧
    titleScan [c8NoTextShape, c8OtherShape] = "No Title" ∧
    notesConcat [c8NoTextShape, c8OtherShape] = notesConcat [c8OtherShape] ∧
    (shapeInfoOf c8NoTextShape).has_text = false ∧
    c8PlainNoText.text = none ∧
    titleScan [c8PlainNoText, c8OtherShape] = titleScan [c8OtherShape] := by
  have h := claim8_missing_text_attribute c8NoTextShape rfl
  have h2 := claim8_missing_text_attribute c8PlainNoText rfl
  exact ⟨rfl, h.1 [c8OtherShape], h.2.1 [c8OtherShape],
    h.2.2.1 [c8OtherShape] rfl rfl, h.2.2.2.2.2.1 [c8OtherShape],
    h.2.2.2.2.2.2, rfl, h2.2.2.2.2.1 [c8OtherShape] rfl⟩

/-- Claim C9, counterexample: an explicitly given empty-string output path
is not returned unchanged — the Python truthiness guard treats it as
absent and the derived default path is returned instead. -/
theorem claim9_counterexample :
    (save_to_json c9Doc (some "")).1 = "slides/deck_extracted_info.json" ∧
    (save_to_json c9Doc (some "")).1 ≠ "" := by
  decide

/-- Claim C9, amended: with no output path the file goes to the fixed
directory "slides" joined with the input stem plus the suffix, so
/tmp/deck.pptx maps to slides/deck_extracted_info.json; any non-empty
explicit path is used and returned unchanged (the empty string is treated
as absent). -/
theorem claim9_save_path (e : Extractor) (o : String) (ho : o ≠ "") :
    (save_to_json e none).1 = defaultOutputPath e.file_path ∧
    (save_to_json e (some o)).1 = o ∧
    (save_to_json c9Doc none).1 = "slides/deck_extracted_info.json" := by
  refine ⟨rfl, ?_, by decide⟩
  simp [save_to_json, ho]

/-- Claim C9, witness: the amended theorem applied to a concrete non-empty
explicit output path. -/
theorem claim9_witness :
    ("out/report.json" : String) ≠ "" ∧
    (save_to_json c9Doc (some "out/report.json")).1 = "out/report.json" := by
  refine ⟨by decide, ?_⟩
  exact (claim9_save_path c9Doc "out/report.json" (by decide)).2.1

/-- Claim C10: when the first title placeholder (type code 1) of a slide —
wherever it sits, also after non-title placeholders, which the scan passes
over — has trimmed text exactly the sentinel "No Title", the extracted
title is whatever the fallback scan produces — the first line of the first
shape with non-empty trimmed text — not necessarily the placeholder
text. -/
theorem claim10_sentinel_collision (sl : Slide) (ph : Shape)
    (h1 : firstTitlePlaceholder sl.shapes = some ph)
    (h3 : ph.trimText = "No Title") :
    slideTitle sl = specFallback sl.shapes := by
  rw [slideTitle_eq_specTitle]
  simp [specTitle, h1, h3]

/-- Claim C10, witness: on the concrete slide whose title placeholder says
exactly "No Title" and is preceded by a non-title placeholder, the
extracted title is "Agenda items", taken from a different shape. -/
theorem claim10_witness :
    firstTitlePlaceholder c10Slide.shapes = some (placeholderShape 1 (some "No Title")) ∧
    (placeholderShape 1 (some "No Title")).placeholder_type = 1 ∧
    (placeholderShape 1 (some "No Title")).trimText = "No Title" ∧
    (placeholderShape 2 (some " ")).is_placeholder = true ∧
    (placeholderShape 2 (some " ")).placeholder_type ≠ 1 ∧
    slideTitle c10Slide = specFallback c10Slide.shapes ∧
    slideTitle c10Slide = "Agenda items" ∧
    "Agenda items" ≠ "No Title" := by
  refine ⟨by decide, by decide, by decide, by decide, by decide, ?_, by decide, by decide⟩
  exact claim10_sentinel_collision c10Slide (placeholderShape 1 (some "No Title"))
    (by decide) (by decide)

end PPTX
